import Mathlib

/-!
Shallow embedding of `src/motorESCAlpha.py` (class `Motor`), the ESC-telemetry
motor-down detector.  Python floats are modelled as rationals (`ℚ`), Python
lists as Lean `List`s, `None`-able slots as `Option`, the wall clock
(`time.time()`) as an explicit `now : ℚ` argument, and raising Python calls as
`Except PyErr`.  The serial device is an external collaborator: one poll-loop
interaction with it is summarised by a `TransportResult` input.
-/

namespace MotorESCAlpha

/-- Python runtime exceptions that the embedded fragments can raise. -/
inductive PyErr where
  | typeError
  | valueError
deriving DecidableEq

deriving instance DecidableEq for Except

/-- A Python value that is either a text string (`str`) or a byte string
(`bytes`); only ASCII content appears in this program so both carry a
`String`. -/
inductive PyVal where
  | str (s : String)
  | bytes (s : String)
deriving DecidableEq

/-- Python's unbound method call `str.encode(x)`: encoding a `str` yields its
bytes; applying it to a `bytes` object raises `TypeError` (CPython 3). -/
def pyStrEncode : PyVal → Except PyErr PyVal
  | PyVal.str s => Except.ok (PyVal.bytes s)
  | PyVal.bytes _ => Except.error PyErr.typeError

/-- Python's `int()` applied to a float: truncation toward zero (computed on
the numerator and denominator so that the kernel can evaluate it; see
`pyInt_eq_floor_or_ceil` for the floor/ceiling characterisation). -/
def pyInt (q : ℚ) : ℤ :=
  if 0 ≤ q.num then q.num / (q.den : ℤ) else -(-q.num / (q.den : ℤ))

/-- Python's `bool()` applied to an int: nonzero is `True`. -/
def pyBool (n : ℤ) : Bool :=
  n != 0

/-- Python's `time.sleep`: raises `ValueError` on a negative duration. -/
def pySleep (secs : ℚ) : Except PyErr Unit :=
  if secs < 0 then Except.error PyErr.valueError else Except.ok ()

/-- The string `'0' * n`: `n` ASCII zero characters (line 81). -/
def zeroToken (n : Nat) : String :=
  String.mk (List.replicate n '0')

/-- The dictionary built at lines 267-276 and sent as full telemetry: eight
per-motor lists, in the key order of the source. -/
structure Snapshot where
  motorStatusList : List (Option String)
  throttleInPercentList : List (Option ℚ)
  throttleOutPercentList : List (Option ℚ)
  voltageList : List (Option ℚ)
  phaseCurrentList : List (Option ℚ)
  motorRPMList : List (Option ℚ)
  totalCurrentList : List (Option ℚ)
  mosfetTempList : List (Option ℚ)
deriving DecidableEq

/-- A non-`None` argument to `sendToAircraft`: either the full-telemetry
dictionary or the fixed communication-failure dictionary
`{"status": "error", "message": "Failed to communicate with Teensy."}`
(line 320). -/
inductive Payload where
  | fullData (snapshot : Snapshot)
  | errorMsg
deriving DecidableEq

/-- One message printed to the supervising computer.  `payload` is one
`json.dumps` of a dictionary (full telemetry or the error dictionary);
`statusOnly` is the batch of per-motor status messages printed by the
`dataToAirCraft == None` branch of `sendToAircraft` (lines 290-295), each
message carrying the 1-based motor tag and the stored status string. -/
inductive Emission where
  | payload (p : Payload)
  | statusOnly (msgs : List (String × Option String))
deriving DecidableEq

/-- Outcome of one serial interaction (`reset_input_buffer` / `write` /
`readline`): either a line of text was read, or some step raised.  Note that
under CPython 3 the `write` argument itself always raises `TypeError` (see
`writeTeensyArg`, about line 156), so `exn PyErr.typeError` is the outcome
actually reachable with the source as written; `line` models the interaction
the code is evidently written to perform. -/
inductive TransportResult where
  | line (s : String)
  | exn (e : PyErr)
deriving DecidableEq

/-- The mutable state of class `Motor` (the fields of `__init__` that the
core logic reads or writes; the serial-port configuration constants are
omitted together with the transport collaborator itself). -/
structure Motor where
  frequencySendFullTelemetry : ℚ
  totalNumMotors : Nat
  bytesToSendToTeensy : PyVal
  numOfDataReceived : Nat
  timeList : List (Option ℚ)
  isMotorUpdatedList : List Bool
  throttleInPercentList : List (Option ℚ)
  throttleOutPercentList : List (Option ℚ)
  motorRPMList : List (Option ℚ)
  voltageList : List (Option ℚ)
  totalCurrentList : List (Option ℚ)
  phaseCurrentList : List (Option ℚ)
  mosfetTempList : List (Option ℚ)
  capacitorTempList : List (Option ℚ)
  motorStatusList : List (Option String)
  lasTimeHeartbeat : ℚ
  maxTimeNoHeartbeat : ℚ
  lastTimeSendFullTelemetry : ℚ
  maxTimeBetweenTelemetry : ℚ
  lastTimeMotorUpdate : List ℚ
  maxTimeNoUpdate : ℚ
  MIN_RPM_THRESHOLD : ℚ
  MAX_RPM_THRESHOLD : ℚ
  MIN_PHASE_CURR_THRESHOLD : ℚ
  MAX_PHASE_CURR_THRESHOLD : ℚ
  MIN_TOTAL_CURR_THRESHOLD : ℚ
  MAX_TOTAL_CURR_THRESHOLD : ℚ
  MIN_VOLTAGE_THRESHOLD : ℚ
  MAX_VOLTAGE_THRESHOLD : ℚ
  MIN_TEMP_MOSFET_THRESHOLD : ℚ
  MAX_TEMP_MOSFET_THRESHOLD : ℚ
  CHECK_MOTORS_FREQUENCY_HZ : ℚ
  REQUEST_DATA_EVERY_N_SECONDS : ℚ
deriving DecidableEq

/-- `Motor.__init__` (lines 67-135); `t0` is the value of `time.time()` during
construction.  `bytesToSendToTeensy` holds the result of the (successful)
`str.encode('0' * totalNumMotors)` at line 81. -/
def Motor.init (t0 : ℚ) : Motor :=
  let frequencySendFullTelemetry : ℚ := 2
  let totalNumMotors : Nat := 6
  let maxTimeNoResponseSerial : ℚ := 5
  let maxTimeNoHeartbeat : ℚ := maxTimeNoResponseSerial
  let CHECK_MOTORS_FREQUENCY_HZ : ℚ := 10
  { frequencySendFullTelemetry := frequencySendFullTelemetry
    totalNumMotors := totalNumMotors
    bytesToSendToTeensy := PyVal.bytes (zeroToken totalNumMotors)
    numOfDataReceived := 10 + 1
    timeList := List.replicate totalNumMotors none
    isMotorUpdatedList := List.replicate totalNumMotors false
    throttleInPercentList := List.replicate totalNumMotors none
    throttleOutPercentList := List.replicate totalNumMotors none
    motorRPMList := List.replicate totalNumMotors none
    voltageList := List.replicate totalNumMotors none
    totalCurrentList := List.replicate totalNumMotors none
    phaseCurrentList := List.replicate totalNumMotors none
    mosfetTempList := List.replicate totalNumMotors none
    capacitorTempList := List.replicate totalNumMotors none
    motorStatusList := List.replicate totalNumMotors none
    lasTimeHeartbeat := t0
    maxTimeNoHeartbeat := maxTimeNoHeartbeat
    lastTimeSendFullTelemetry := 0
    maxTimeBetweenTelemetry := 1 / frequencySendFullTelemetry
    lastTimeMotorUpdate := List.replicate totalNumMotors t0
    maxTimeNoUpdate := maxTimeNoHeartbeat
    MIN_RPM_THRESHOLD := 350
    MAX_RPM_THRESHOLD := 10000
    MIN_PHASE_CURR_THRESHOLD := 18 / 100
    MAX_PHASE_CURR_THRESHOLD := 9
    MIN_TOTAL_CURR_THRESHOLD := 14 / 10
    MAX_TOTAL_CURR_THRESHOLD := 18
    MIN_VOLTAGE_THRESHOLD := 18
    MAX_VOLTAGE_THRESHOLD := 252 / 10
    MIN_TEMP_MOSFET_THRESHOLD := 20
    MAX_TEMP_MOSFET_THRESHOLD := 75
    CHECK_MOTORS_FREQUENCY_HZ := CHECK_MOTORS_FREQUENCY_HZ
    REQUEST_DATA_EVERY_N_SECONDS := 1 / CHECK_MOTORS_FREQUENCY_HZ }

/-- Well-formedness maintained by the source: every per-motor list has exactly
`totalNumMotors` entries. -/
def motorWF (m : Motor) : Prop :=
  m.timeList.length = m.totalNumMotors ∧
  m.isMotorUpdatedList.length = m.totalNumMotors ∧
  m.throttleInPercentList.length = m.totalNumMotors ∧
  m.throttleOutPercentList.length = m.totalNumMotors ∧
  m.motorRPMList.length = m.totalNumMotors ∧
  m.voltageList.length = m.totalNumMotors ∧
  m.totalCurrentList.length = m.totalNumMotors ∧
  m.phaseCurrentList.length = m.totalNumMotors ∧
  m.mosfetTempList.length = m.totalNumMotors ∧
  m.capacitorTempList.length = m.totalNumMotors ∧
  m.motorStatusList.length = m.totalNumMotors ∧
  m.lastTimeMotorUpdate.length = m.totalNumMotors

instance (m : Motor) : Decidable (motorWF m) := by
  unfold motorWF; infer_instance

/-- `isWithinMaxMinLimits` (lines 257-261). -/
def isWithinMaxMinLimits (value min max : ℚ) : Bool :=
  if value < min ∨ value > max then false else true

/-- `isMotorRPMOK` (lines 222-227).  Reading a `None` RPM slot while the
updated flag is set would raise a `TypeError` in the comparison; through
`updateData` the slot is always filled before the check runs. -/
def isMotorRPMOK (m : Motor) (motorNum : Nat) : Except PyErr Bool :=
  if m.isMotorUpdatedList.getD motorNum false then
    match m.motorRPMList.getD motorNum none with
    | some motorRPM =>
        Except.ok (isWithinMaxMinLimits motorRPM m.MIN_RPM_THRESHOLD m.MAX_RPM_THRESHOLD)
    | none => Except.error PyErr.typeError
  else
    Except.ok true

/-- `isMotorVoltageOK` (lines 229-234); defined but not called by
`isMotorOK` in the source (its call is commented out). -/
def isMotorVoltageOK (m : Motor) (motorNum : Nat) : Except PyErr Bool :=
  if m.isMotorUpdatedList.getD motorNum false then
    match m.voltageList.getD motorNum none with
    | some voltage =>
        Except.ok (isWithinMaxMinLimits voltage m.MIN_VOLTAGE_THRESHOLD m.MAX_VOLTAGE_THRESHOLD)
    | none => Except.error PyErr.typeError
  else
    Except.ok true

/-- `isTotalMotorCurrentOK` (lines 236-241); not called by `isMotorOK`. -/
def isTotalMotorCurrentOK (m : Motor) (motorNum : Nat) : Except PyErr Bool :=
  if m.isMotorUpdatedList.getD motorNum false then
    match m.totalCurrentList.getD motorNum none with
    | some totalCurrent =>
        Except.ok (isWithinMaxMinLimits totalCurrent m.MIN_TOTAL_CURR_THRESHOLD m.MAX_TOTAL_CURR_THRESHOLD)
    | none => Except.error PyErr.typeError
  else
    Except.ok true

/-- `isPhaseMotorCurrentOK` (lines 243-248); not called by `isMotorOK`. -/
def isPhaseMotorCurrentOK (m : Motor) (motorNum : Nat) : Except PyErr Bool :=
  if m.isMotorUpdatedList.getD motorNum false then
    match m.phaseCurrentList.getD motorNum none with
    | some phaseCurrent =>
        Except.ok (isWithinMaxMinLimits phaseCurrent m.MIN_PHASE_CURR_THRESHOLD m.MAX_PHASE_CURR_THRESHOLD)
    | none => Except.error PyErr.typeError
  else
    Except.ok true

/-- `isMotorTemperatureOK` (lines 250-255); not called by `isMotorOK`. -/
def isMotorTemperatureOK (m : Motor) (motorNum : Nat) : Except PyErr Bool :=
  if m.isMotorUpdatedList.getD motorNum false then
    match m.mosfetTempList.getD motorNum none with
    | some MOSFETtemp =>
        Except.ok (isWithinMaxMinLimits MOSFETtemp m.MIN_TEMP_MOSFET_THRESHOLD m.MAX_TEMP_MOSFET_THRESHOLD)
    | none => Except.error PyErr.typeError
  else
    Except.ok true

/-- `isMotorOK` (lines 208-220): out-of-range motor number yields `False`;
otherwise only the RPM check runs (the voltage, current and temperature checks
are commented out at lines 215-218), so the answer is the RPM check's. -/
def isMotorOK (m : Motor) (motorNum : ℤ) : Except PyErr Bool :=
  if motorNum < 0 ∨ motorNum ≥ (m.totalNumMotors : ℤ) then
    Except.ok false
  else
    isMotorRPMOK m motorNum.toNat

/-- The body of `updateData` (lines 170-196) after the `map(float, ...)`
conversion: `vals` is the list of eleven parsed numbers (any other arity makes
the Python tuple unpacking at line 172 raise `ValueError`).  The motor number
is truncated to `int`, range-checked, and on success every stored field of
that motor is overwritten, its status is recomputed from the freshly written
values, and its update timestamp is refreshed only when the updated flag is
set. -/
def updateDataVals (m : Motor) (vals : List ℚ) (now : ℚ) :
    Except PyErr (Bool × Motor) :=
  match vals with
  | [motorNumF, isMotorUpdated, timeMotor, throttleInPercent, throttleOutPercent,
     motorRPM, voltage, totalCurrent, phaseCurrent, mosfetTemp, capacitorTemp] =>
    let motorNum : ℤ := pyInt motorNumF
    if 0 ≤ motorNum ∧ motorNum < (m.totalNumMotors : ℤ) then
      let i : Nat := motorNum.toNat
      let m1 : Motor :=
        { m with
          timeList := m.timeList.set i (some timeMotor)
          isMotorUpdatedList := m.isMotorUpdatedList.set i (pyBool (pyInt isMotorUpdated))
          throttleInPercentList := m.throttleInPercentList.set i (some throttleInPercent)
          throttleOutPercentList := m.throttleOutPercentList.set i (some throttleOutPercent)
          motorRPMList := m.motorRPMList.set i (some motorRPM)
          voltageList := m.voltageList.set i (some voltage)
          totalCurrentList := m.totalCurrentList.set i (some totalCurrent)
          phaseCurrentList := m.phaseCurrentList.set i (some phaseCurrent)
          mosfetTempList := m.mosfetTempList.set i (some mosfetTemp)
          capacitorTempList := m.capacitorTempList.set i (some capacitorTemp) }
      match isMotorOK m1 motorNum with
      | Except.error e => Except.error e
      | Except.ok ok =>
        let m2 : Motor :=
          { m1 with motorStatusList :=
              m1.motorStatusList.set i (some (if ok then "normal" else "down")) }
        let m3 : Motor :=
          if m2.isMotorUpdatedList.getD i false = true then
            { m2 with lastTimeMotorUpdate := m2.lastTimeMotorUpdate.set i now }
          else m2
        Except.ok (true, m3)
    else
      Except.ok (false, m)
  | _ => Except.error PyErr.valueError

/-- `list(map(float, dataStringList))` at line 172, parameterised by a model
`pyFloat` of the Python `float` builtin (an external runtime primitive): the
first non-numeric field raises. -/
def pyMapFloat (pyFloat : String → Except PyErr ℚ) :
    List String → Except PyErr (List ℚ)
  | [] => Except.ok []
  | s :: rest => do
    let v ← pyFloat s
    let vs ← pyMapFloat pyFloat rest
    Except.ok (v :: vs)

/-- `updateData` (lines 170-196): parse all fields as floats, then apply. -/
def updateData (pyFloat : String → Except PyErr ℚ) (m : Motor)
    (dataStringList : List String) (now : ℚ) : Except PyErr (Bool × Motor) := do
  let vals ← pyMapFloat pyFloat dataStringList
  updateDataVals m vals now

/-- `str.split(",")` on the character list of a string: Python's split on a
one-character separator (the empty string yields one empty field). -/
def splitFields : List Char → List (List Char)
  | [] => [[]]
  | c :: rest =>
    match splitFields rest with
    | [] => [[c]]
    | f :: fs => if c = ',' then [] :: f :: fs else (c :: f) :: fs

/-- Line 161: drop every carriage return and newline (the two Python
`replace` calls), then split on commas. -/
def decodeLine (s : String) : List String :=
  (splitFields (s.data.filter (fun c => !(c == '\r') && !(c == '\n')))).map String.mk

/-- The argument of the serial write at line 156:
`str.encode(self.bytesToSendToTeensy)`.  Since `bytesToSendToTeensy` already
holds `bytes` (line 81 encoded it), this second encode raises `TypeError`
under CPython 3 before anything is written. -/
def writeTeensyArg (m : Motor) : Except PyErr PyVal :=
  pyStrEncode m.bytesToSendToTeensy

/-- `readDataFromTeensy` (lines 153-168) downstream of the serial
interaction, whose outcome is the input `t`: on a received line, split it into
fields; a field count different from `numOfDataReceived` is logged and
rejected (`False`, heartbeat untouched); otherwise the heartbeat clock is
refreshed and the fields are kept for `updateData`. -/
def readDataFromTeensy (m : Motor) (t : TransportResult) (now : ℚ) :
    Except PyErr (Bool × Motor × List String) :=
  match t with
  | TransportResult.exn e => Except.error e
  | TransportResult.line s =>
    let dataStringList := decodeLine s
    if dataStringList.length ≠ m.numOfDataReceived then
      Except.ok (false, m, dataStringList)
    else
      Except.ok (true, { m with lasTimeHeartbeat := now }, dataStringList)

/-- The per-motor messages printed by the `None` branch of `sendToAircraft`
(lines 291-294): motor tag `str(i+1)` and the stored status string. -/
def statusMsgs (m : Motor) : List (String × Option String) :=
  (List.range m.totalNumMotors).map
    (fun i => (toString (i + 1), m.motorStatusList.getD i none))

/-- The full-telemetry dictionary of lines 267-276. -/
def mkDataToAirCraft (m : Motor) : Snapshot :=
  { motorStatusList := m.motorStatusList
    throttleInPercentList := m.throttleInPercentList
    throttleOutPercentList := m.throttleOutPercentList
    voltageList := m.voltageList
    phaseCurrentList := m.phaseCurrentList
    motorRPMList := m.motorRPMList
    totalCurrentList := m.totalCurrentList
    mosfetTempList := m.mosfetTempList }

/-- `sendToAircraft` (lines 289-303): a `None` payload prints one status
message per motor and changes nothing; any non-`None` payload is printed as
JSON and then `lastTimeSendFullTelemetry` is set to now (line 300) — whatever
dictionary was passed. -/
def sendToAircraft (m : Motor) (dataToAirCraft : Option Payload) (now : ℚ) :
    Motor × List Emission :=
  match dataToAirCraft with
  | none => (m, [Emission.statusOnly (statusMsgs m)])
  | some p => ({ m with lastTimeSendFullTelemetry := now }, [Emission.payload p])

/-- `sendCommunicationFailed` (lines 319-320). -/
def sendCommunicationFailed (m : Motor) (now : ℚ) : Motor × List Emission :=
  sendToAircraft m (some Payload.errorMsg) now

/-- `prepareAndSendDataToAirCraft` (lines 263-287): choose the full dictionary
when the full-telemetry interval has elapsed, else `None`; then send only if
every motor status has been set at least once. -/
def prepareAndSendDataToAirCraft (m : Motor) (now : ℚ) : Motor × List Emission :=
  let dataToAirCraft : Option Payload :=
    if now - m.lastTimeSendFullTelemetry ≥ m.maxTimeBetweenTelemetry then
      some (Payload.fullData (mkDataToAirCraft m))
    else
      none
  if none ∈ m.motorStatusList then (m, [])
  else sendToAircraft m dataToAirCraft now

/-- `isMotorsUpdateOK` (lines 198-206): scanning the motors in order, the
first one that is both not updated and silent for at least `maxTimeNoUpdate`
triggers one `sendCommunicationFailed` and a `False` return; at most one
warning is emitted because the loop returns at the first stale motor, so the
scan is the `any` of the per-motor stale condition. -/
def isMotorsUpdateOK (m : Motor) (now : ℚ) : Bool × Motor × List Emission :=
  if (m.isMotorUpdatedList.zip m.lastTimeMotorUpdate).any
      (fun p => !p.1 && decide (now - p.2 ≥ m.maxTimeNoUpdate)) then
    let r := sendCommunicationFailed m now
    (false, r.1, r.2)
  else
    (true, m, [])

/-- The `except` handler of `getDataCallback` (lines 145-151): on any raise,
emit the communication-failure message only if the heartbeat is older than
`maxTimeNoHeartbeat`. -/
def handleExn (m : Motor) (now : ℚ) : Motor × List Emission :=
  if now - m.lasTimeHeartbeat > m.maxTimeNoHeartbeat then
    sendCommunicationFailed m now
  else
    (m, [])

/-- `getDataCallback` (lines 137-151), one poll-loop body: read (abort on a
non-telemetry line), run the staleness scan (its Boolean result is ignored by
the source), update the registry from the parsed fields (abort on an
out-of-range motor), then batch and send; any raise lands in the `except`
handler.  The returned list collects, in order, every emission of the
cycle. -/
def getDataCallback (pyFloat : String → Except PyErr ℚ) (m0 : Motor)
    (t : TransportResult) (now : ℚ) : Motor × List Emission :=
  match readDataFromTeensy m0 t now with
  | Except.error _ => handleExn m0 now
  | Except.ok (ok1, m1, dataStringList) =>
    if ok1 = false then (m1, [])
    else
      let r2 := isMotorsUpdateOK m1 now
      let m2 := r2.2.1
      let es2 := r2.2.2
      match updateData pyFloat m2 dataStringList now with
      | Except.error _ =>
        let r3 := handleExn m2 now
        (r3.1, es2 ++ r3.2)
      | Except.ok (ok3, m3) =>
        if ok3 = false then (m3, es2)
        else
          let r4 := prepareAndSendDataToAirCraft m3 now
          (r4.1, es2 ++ r4.2)

/-- The end-of-cycle sleep of `run` (lines 338-344):
`time.sleep(REQUEST_DATA_EVERY_N_SECONDS - timePassed)` with no clamping of a
negative remainder. -/
def runCycleSleep (m : Motor) (timePassed : ℚ) : Except PyErr Unit :=
  pySleep (m.REQUEST_DATA_EVERY_N_SECONDS - timePassed)

/-- The effect that applying an in-range eleven-field frame
`[v0 (motor number), v1 (updated flag), v2 (time), v3-v10 (metrics)]` has on
the registry: the addressed motor's eleven stored slots are all overwritten
(whatever the updated flag), its status is recomputed by the health evaluator
on the freshly written values, its update timestamp becomes `now` exactly when
the updated flag decodes to true, and every other motor's slots are
untouched. -/
def updateDataPost (m : Motor)
    (v0 v1 v2 v3 v4 v5 v6 v7 v8 v9 v10 now : ℚ) : Prop :=
  ∃ m2 : Motor,
    updateDataVals m [v0, v1, v2, v3, v4, v5, v6, v7, v8, v9, v10] now =
      Except.ok (true, m2) ∧
    m2.timeList.getD (pyInt v0).toNat none = some v2 ∧
    m2.isMotorUpdatedList.getD (pyInt v0).toNat false = pyBool (pyInt v1) ∧
    m2.throttleInPercentList.getD (pyInt v0).toNat none = some v3 ∧
    m2.throttleOutPercentList.getD (pyInt v0).toNat none = some v4 ∧
    m2.motorRPMList.getD (pyInt v0).toNat none = some v5 ∧
    m2.voltageList.getD (pyInt v0).toNat none = some v6 ∧
    m2.totalCurrentList.getD (pyInt v0).toNat none = some v7 ∧
    m2.phaseCurrentList.getD (pyInt v0).toNat none = some v8 ∧
    m2.mosfetTempList.getD (pyInt v0).toNat none = some v9 ∧
    m2.capacitorTempList.getD (pyInt v0).toNat none = some v10 ∧
    (∃ b : Bool, isMotorOK m2 (pyInt v0) = Except.ok b ∧
       m2.motorStatusList.getD (pyInt v0).toNat none =
         some (if b then "normal" else "down")) ∧
    m2.lastTimeMotorUpdate.getD (pyInt v0).toNat 0 =
      (if pyBool (pyInt v1) then now
       else m.lastTimeMotorUpdate.getD (pyInt v0).toNat 0) ∧
    (∀ j : Nat, j ≠ (pyInt v0).toNat →
       m2.timeList.getD j none = m.timeList.getD j none ∧
       m2.isMotorUpdatedList.getD j false = m.isMotorUpdatedList.getD j false ∧
       m2.throttleInPercentList.getD j none = m.throttleInPercentList.getD j none ∧
       m2.throttleOutPercentList.getD j none = m.throttleOutPercentList.getD j none ∧
       m2.motorRPMList.getD j none = m.motorRPMList.getD j none ∧
       m2.voltageList.getD j none = m.voltageList.getD j none ∧
       m2.totalCurrentList.getD j none = m.totalCurrentList.getD j none ∧
       m2.phaseCurrentList.getD j none = m.phaseCurrentList.getD j none ∧
       m2.mosfetTempList.getD j none = m.mosfetTempList.getD j none ∧
       m2.capacitorTempList.getD j none = m.capacitorTempList.getD j none ∧
       m2.motorStatusList.getD j none = m.motorStatusList.getD j none ∧
       m2.lastTimeMotorUpdate.getD j 0 = m.lastTimeMotorUpdate.getD j 0)

/-- Shape of the emission list of one `getDataCallback` cycle: at most two
messages, and when there are two the first is the communication-failure
dictionary. -/
def cycleEmissionShape (es : List Emission) : Bool :=
  match es with
  | [] => true
  | [_] => true
  | [a, _] => decide (a = Emission.payload Payload.errorMsg)
  | _ => false

/-- A freshly constructed motor whose motor 0 reported an updated RPM of 200
(below the 350 minimum). -/
def mC3 : Motor :=
  { Motor.init 0 with
    isMotorUpdatedList := [true, false, false, false, false, false]
    motorRPMList := [some 200, none, none, none, none, none] }

/-- A freshly constructed motor (`t0 = 0`) on which every status slot has been
filled with "normal"; the updated flags and per-motor timestamps still hold
their constructor values. -/
def mAllReported : Motor :=
  { Motor.init 0 with motorStatusList := List.replicate 6 (some "normal") }

/-- A concrete model of the Python `float` builtin, defined on the decimal
integer literals used by the concrete telemetry lines of this file. -/
def pyFloatTable (s : String) : Except PyErr ℚ :=
  match s with
  | "0" => Except.ok 0
  | "1" => Except.ok 1
  | "3" => Except.ok 3
  | "10" => Except.ok 10
  | "22" => Except.ok 22
  | "30" => Except.ok 30
  | "40" => Except.ok 40
  | "48" => Except.ok 48
  | "50" => Except.ok 50
  | "1000" => Except.ok 1000
  | "5000" => Except.ok 5000
  | _ => Except.error PyErr.valueError

/-- A well-formed eleven-field telemetry line for motor 0 with the updated
flag set and an in-range RPM of 5000. -/
def telemetryLine : String :=
  "0,1,1000,50,48,5000,22,10,3,40,30"

theorem getD_set_self {α : Type} (l : List α) (i : Nat) (a d : α)
    (h : i < l.length) : (l.set i a).getD i d = a := by
  simp [List.getD_eq_getElem?_getD, List.getElem?_set_self h]

theorem getD_set_ne {α : Type} (l : List α) {i j : Nat} (a d : α)
    (h : i ≠ j) : (l.set i a).getD j d = l.getD j d := by
  simp [List.getD_eq_getElem?_getD, List.getElem?_set_ne h]

theorem pyInt_eq_floor_or_ceil (q : ℚ) :
    pyInt q = if 0 ≤ q then ⌊q⌋ else ⌈q⌉ := by
  unfold pyInt
  by_cases hq : 0 ≤ q
  · rw [if_pos (Rat.num_nonneg.mpr hq), if_pos hq, Rat.floor_def]
  · have hn : ¬ 0 ≤ q.num := fun h => hq (Rat.num_nonneg.mp h)
    rw [if_neg hn, if_neg hq]
    have h1 : ⌊-q⌋ = (-q).num / ((-q).den : ℤ) := @Rat.floor_def (-q)
    rw [Rat.neg_num, Rat.neg_den] at h1
    have h2 : ⌊-q⌋ = -⌈q⌉ := Int.floor_neg
    omega

theorem isWithinMaxMinLimits_eq_false (value min max : ℚ) :
    isWithinMaxMinLimits value min max = false ↔ (value < min ∨ value > max) := by
  unfold isWithinMaxMinLimits
  split <;> simp_all

/-- C1: the polling token is indeed the six-character string "000000" and the
constructor encodes it successfully, but the write call at line 156 re-applies
`str.encode` to the stored `bytes`, so under CPython 3 the write raises
`TypeError` on every poll cycle instead of succeeding — the cycle aborts into
the exception handler before any line is read.  This contradicts both the
claim and the source's own comment at the write site. -/
theorem writeTeensyArg_raises :
    zeroToken 6 = "000000" ∧
    pyStrEncode (PyVal.str (zeroToken 6)) = Except.ok (PyVal.bytes (zeroToken 6)) ∧
    (Motor.init 0).bytesToSendToTeensy = PyVal.bytes (zeroToken 6) ∧
    writeTeensyArg (Motor.init 0) = Except.error PyErr.typeError := by
  with_unfolding_all decide

/-- C2: with the default 10 Hz cadence (period 0.1 s), a cycle whose
processing took 0.2 s makes `run` call `time.sleep` with the negative
remainder 0.1 - 0.2, which raises `ValueError` (terminating the loop) instead
of proceeding immediately without sleeping: the remainder is not clamped. -/
theorem run_sleep_negative_raises :
    (Motor.init 0).REQUEST_DATA_EVERY_N_SECONDS = 1 / 10 ∧
    (2 : ℚ) / 10 > (Motor.init 0).REQUEST_DATA_EVERY_N_SECONDS ∧
    runCycleSleep (Motor.init 0) (2 / 10) = Except.error PyErr.valueError := by
  with_unfolding_all decide

/-- C9 (counterexample): the wire value 1/2 of the is-updated field is
nonzero, yet `bool(int(0.5))` stores `updated = false`: applying a frame for
motor 0 whose updated field is 1/2 to a fresh registry leaves motor 0's
updated flag false, refuting "every nonzero v yields updated = true". -/
theorem updated_flag_fractional_false :
    (1 : ℚ) / 2 ≠ 0 ∧
    (updateDataVals (Motor.init 0)
        [0, 1 / 2, 1000, 50, 48, 5000, 22, 10, 3, 40, 30] 7).toOption.map
      (fun r => r.2.isMotorUpdatedList.getD 0 false) = some false := by
  with_unfolding_all decide

/-- C9 (amended): the decoded updated flag is `bool(int(v))`, true iff the
truncation of `v` toward zero is nonzero, i.e. iff `1 ≤ v` or `v ≤ -1`; in
particular every fractional value with `|v| < 1` decodes to false. -/
theorem updated_flag_iff (v : ℚ) :
    pyBool (pyInt v) = true ↔ (1 ≤ v ∨ v ≤ -1) := by
  rw [pyInt_eq_floor_or_ceil]
  unfold pyBool
  by_cases hv : 0 ≤ v
  · rw [if_pos hv]
    simp only [bne_iff_ne, ne_eq]
    constructor
    · intro hne
      left
      have h0 : 0 ≤ ⌊v⌋ := Int.floor_nonneg.mpr hv
      have h1 : 1 ≤ ⌊v⌋ := by omega
      have h2 := Int.le_floor.mp h1
      exact_mod_cast h2
    · rintro (h1 | h1)
      · have h2 : (1 : ℤ) ≤ ⌊v⌋ := Int.le_floor.mpr (by exact_mod_cast h1)
        omega
      · exact absurd h1 (by linarith)
  · rw [if_neg hv]
    push_neg at hv
    simp only [bne_iff_ne, ne_eq]
    constructor
    · intro hne
      right
      have h0 : ⌈v⌉ ≤ 0 := Int.ceil_le.mpr (by exact_mod_cast hv.le)
      have h1 : ⌈v⌉ ≤ -1 := by omega
      have h2 := Int.ceil_le.mp h1
      exact_mod_cast h2
    · rintro (h1 | h1)
      · exact absurd h1 (by linarith)
      · have h2 : ⌈v⌉ ≤ -1 := Int.ceil_le.mpr (by exact_mod_cast h1)
        omega

/-- C5: a decoded frame whose truncated motor index is outside `[0, N)` makes
`updateData` return `False` with the registry object exactly as it was: no
list and no timestamp is touched. -/
theorem updateDataVals_out_of_range (m : Motor)
    (v0 v1 v2 v3 v4 v5 v6 v7 v8 v9 v10 now : ℚ)
    (h : pyInt v0 < 0 ∨ (m.totalNumMotors : ℤ) ≤ pyInt v0) :
    updateDataVals m [v0, v1, v2, v3, v4, v5, v6, v7, v8, v9, v10] now =
      Except.ok (false, m) := by
  simp only [updateDataVals]
  rw [if_neg (by omega)]

theorem updateDataVals_out_of_range_witness :
    (pyInt 6 < 0 ∨ ((Motor.init 0).totalNumMotors : ℤ) ≤ pyInt 6) ∧
    updateDataVals (Motor.init 0) [6, 1, 1000, 50, 48, 5000, 22, 10, 3, 40, 30] 3 =
      Except.ok (false, Motor.init 0) :=
  ⟨Or.inr (by with_unfolding_all decide),
   updateDataVals_out_of_range (Motor.init 0) 6 1 1000 50 48 5000 22 10 3 40 30 3
     (Or.inr (by with_unfolding_all decide))⟩

/-- C3: for any thresholds and any motor reading (index in range, RPM slot
holding a value `v`), the health evaluation answers "down" iff the one check
that is enabled in the source — the RPM check — sees the updated flag true and
`v` strictly outside `[MIN_RPM_THRESHOLD, MAX_RPM_THRESHOLD]`; when the
updated flag is false the answer is "normal" whatever the stored values; and
for the limit test itself, a value equal to either bound of a well-ordered
interval is within limits. -/
theorem isMotorOK_down_iff (m : Motor) (i : Nat) (v : ℚ)
    (hi : (i : ℤ) < (m.totalNumMotors : ℤ))
    (hv : m.motorRPMList.getD i none = some v) :
    (isMotorOK m (i : ℤ) = Except.ok false ↔
      (m.isMotorUpdatedList.getD i false = true ∧
        (v < m.MIN_RPM_THRESHOLD ∨ v > m.MAX_RPM_THRESHOLD))) ∧
    (m.isMotorUpdatedList.getD i false = false →
      isMotorOK m (i : ℤ) = Except.ok true) ∧
    (∀ min max : ℚ, min ≤ max →
      isWithinMaxMinLimits min min max = true ∧
      isWithinMaxMinLimits max min max = true) := by
  have hrange : ¬ ((i : ℤ) < 0 ∨ (i : ℤ) ≥ (m.totalNumMotors : ℤ)) := by omega
  have htonat : (i : ℤ).toNat = i := Int.toNat_natCast i
  unfold isMotorOK
  rw [if_neg hrange, htonat]
  unfold isMotorRPMOK
  refine ⟨?_, ?_, ?_⟩
  · cases hupd : m.isMotorUpdatedList.getD i false with
    | false => simp [hupd, hv]
    | true =>
      simp only [hupd, if_true, hv, true_and]
      constructor
      · intro hok
        have : isWithinMaxMinLimits v m.MIN_RPM_THRESHOLD m.MAX_RPM_THRESHOLD = false := by
          cases hw : isWithinMaxMinLimits v m.MIN_RPM_THRESHOLD m.MAX_RPM_THRESHOLD
          · rfl
          · rw [hw] at hok; exact absurd (Except.ok.inj hok) (by simp)
        exact (isWithinMaxMinLimits_eq_false v _ _).mp this
      · intro hout
        rw [(isWithinMaxMinLimits_eq_false v _ _).mpr hout]
  · intro hupd
    rw [hupd]
    simp
  · intro mn mx hle
    constructor
    · unfold isWithinMaxMinLimits
      rw [if_neg (by push_neg; exact ⟨le_refl mn, hle⟩)]
    · unfold isWithinMaxMinLimits
      rw [if_neg (by push_neg; exact ⟨hle, le_refl mx⟩)]

theorem isMotorOK_down_iff_witness :
    ((0 : ℤ) < (mC3.totalNumMotors : ℤ)) ∧
    mC3.motorRPMList.getD 0 none = some 200 ∧
    isMotorOK mC3 0 = Except.ok false :=
  ⟨by with_unfolding_all decide, by with_unfolding_all decide,
   (isMotorOK_down_iff mC3 0 200 (by with_unfolding_all decide)
      (by with_unfolding_all decide)).1.mpr
     ⟨by with_unfolding_all decide, Or.inl (by with_unfolding_all decide)⟩⟩

/-- C10: any non-`None` payload handed to `sendToAircraft` — in particular
the communication-failure dictionary sent by `sendCommunicationFailed` —
resets `lastTimeSendFullTelemetry` to the send time, so after an error
emission at time `now`, a batching cycle that fires at any `now2` less than
one full-telemetry period later takes the status-only branch rather than the
full-telemetry branch. -/
theorem sendToAircraft_resets_clock (m : Motor) (p : Payload) (now now2 : ℚ) :
    (sendToAircraft m (some p) now).1.lastTimeSendFullTelemetry = now ∧
    (sendCommunicationFailed m now).1.lastTimeSendFullTelemetry = now ∧
    (none ∉ m.motorStatusList →
      now2 - now < m.maxTimeBetweenTelemetry →
      prepareAndSendDataToAirCraft (sendCommunicationFailed m now).1 now2 =
        ((sendCommunicationFailed m now).1,
         [Emission.statusOnly (statusMsgs m)])) := by
  refine ⟨rfl, rfl, ?_⟩
  intro hall hlt
  unfold sendCommunicationFailed sendToAircraft prepareAndSendDataToAirCraft
  simp only
  rw [if_neg hall, if_neg (not_le.mpr hlt)]
  rfl

theorem sendToAircraft_resets_clock_witness :
    (none ∉ mAllReported.motorStatusList) ∧
    ((3 : ℚ) - 3 < mAllReported.maxTimeBetweenTelemetry) ∧
    prepareAndSendDataToAirCraft (sendCommunicationFailed mAllReported 3).1 3 =
      ((sendCommunicationFailed mAllReported 3).1,
       [Emission.statusOnly (statusMsgs mAllReported)]) :=
  ⟨by with_unfolding_all decide, by with_unfolding_all decide,
   (sendToAircraft_resets_clock mAllReported Payload.errorMsg 3 3).2.2
     (by with_unfolding_all decide) (by with_unfolding_all decide)⟩

theorem isMotorOK_of_getD (mm : Motor) (z : ℤ) (h0 : 0 ≤ z)
    (hk : z < (mm.totalNumMotors : ℤ)) (v : ℚ)
    (hv : mm.motorRPMList.getD z.toNat none = some v) :
    isMotorOK mm z =
      Except.ok (if mm.isMotorUpdatedList.getD z.toNat false then
        isWithinMaxMinLimits v mm.MIN_RPM_THRESHOLD mm.MAX_RPM_THRESHOLD
      else true) := by
  unfold isMotorOK
  rw [if_neg (by omega)]
  unfold isMotorRPMOK
  cases hb : mm.isMotorUpdatedList.getD z.toNat false with
  | true => rw [hv]; rfl
  | false => rfl

/-- C4: applying a decoded frame whose truncated motor index is in range
overwrites all of that motor's stored slots (even when the updated flag is
false), recomputes its status from the just-written values, refreshes its
update timestamp only when the updated flag is true, and leaves every other
motor's slots untouched. -/
theorem updateData_in_range_effect (m : Motor)
    (v0 v1 v2 v3 v4 v5 v6 v7 v8 v9 v10 now : ℚ)
    (hwf : motorWF m) (h0 : 0 ≤ pyInt v0)
    (h1 : pyInt v0 < (m.totalNumMotors : ℤ)) :
    updateDataPost m v0 v1 v2 v3 v4 v5 v6 v7 v8 v9 v10 now := by
  obtain ⟨hw1, hw2, hw3, hw4, hw5, hw6, hw7, hw8, hw9, hw10, hw11, hw12⟩ := hwf
  have hilt : (pyInt v0).toNat < m.totalNumMotors := by omega
  have hflag : (m.isMotorUpdatedList.set (pyInt v0).toNat
      (pyBool (pyInt v1))).getD (pyInt v0).toNat false = pyBool (pyInt v1) :=
    getD_set_self _ _ _ _ (hw2 ▸ hilt)
  have hok0 := isMotorOK_of_getD { m with
      timeList := m.timeList.set (pyInt v0).toNat (some v2)
      isMotorUpdatedList := m.isMotorUpdatedList.set (pyInt v0).toNat (pyBool (pyInt v1))
      throttleInPercentList := m.throttleInPercentList.set (pyInt v0).toNat (some v3)
      throttleOutPercentList := m.throttleOutPercentList.set (pyInt v0).toNat (some v4)
      motorRPMList := m.motorRPMList.set (pyInt v0).toNat (some v5)
      voltageList := m.voltageList.set (pyInt v0).toNat (some v6)
      totalCurrentList := m.totalCurrentList.set (pyInt v0).toNat (some v7)
      phaseCurrentList := m.phaseCurrentList.set (pyInt v0).toNat (some v8)
      mosfetTempList := m.mosfetTempList.set (pyInt v0).toNat (some v9)
      capacitorTempList := m.capacitorTempList.set (pyInt v0).toNat (some v10) }
    (pyInt v0) h0 (by exact h1) v5
    (by exact getD_set_self _ _ _ _ (hw5 ▸ hilt))
  simp only [hflag] at hok0
  unfold updateDataPost
  cases hb : pyBool (pyInt v1) with
  | true =>
    rw [hb] at hok0 hflag
    rw [if_pos rfl] at hok0
    refine ⟨_, (by
      simp only [updateDataVals]
      rw [if_pos ⟨h0, h1⟩]
      simp only [hb, hok0, hflag, eq_self_iff_true, if_true]
      rfl), ?_⟩
    · refine ⟨getD_set_self _ _ _ _ (hw1 ▸ hilt),
        getD_set_self _ _ _ _ (hw2 ▸ hilt),
        getD_set_self _ _ _ _ (hw3 ▸ hilt),
        getD_set_self _ _ _ _ (hw4 ▸ hilt),
        getD_set_self _ _ _ _ (hw5 ▸ hilt),
        getD_set_self _ _ _ _ (hw6 ▸ hilt),
        getD_set_self _ _ _ _ (hw7 ▸ hilt),
        getD_set_self _ _ _ _ (hw8 ▸ hilt),
        getD_set_self _ _ _ _ (hw9 ▸ hilt),
        getD_set_self _ _ _ _ (hw10 ▸ hilt),
        ⟨isWithinMaxMinLimits v5 m.MIN_RPM_THRESHOLD m.MAX_RPM_THRESHOLD, ?_,
          by exact getD_set_self _ _ _ _ (hw11 ▸ hilt)⟩, ?_, ?_⟩
      · rw [isMotorOK_of_getD _ (pyInt v0) h0 (by exact h1) v5
          (by exact getD_set_self _ _ _ _ (hw5 ▸ hilt))]
        rw [if_pos (by exact getD_set_self _ _ _ _ (hw2 ▸ hilt))]
      · rw [if_pos rfl]
        exact getD_set_self _ _ _ _ (hw12 ▸ hilt)
      · intro j hj
        exact ⟨getD_set_ne _ _ _ (Ne.symm hj), getD_set_ne _ _ _ (Ne.symm hj),
          getD_set_ne _ _ _ (Ne.symm hj), getD_set_ne _ _ _ (Ne.symm hj),
          getD_set_ne _ _ _ (Ne.symm hj), getD_set_ne _ _ _ (Ne.symm hj),
          getD_set_ne _ _ _ (Ne.symm hj), getD_set_ne _ _ _ (Ne.symm hj),
          getD_set_ne _ _ _ (Ne.symm hj), getD_set_ne _ _ _ (Ne.symm hj),
          getD_set_ne _ _ _ (Ne.symm hj), getD_set_ne _ _ _ (Ne.symm hj)⟩
  | false =>
    rw [hb] at hok0 hflag
    rw [if_neg (by simp)] at hok0
    refine ⟨_, (by
      simp only [updateDataVals]
      rw [if_pos ⟨h0, h1⟩]
      simp only [hb, hok0, hflag, Bool.false_eq_true, if_false,
        eq_self_iff_true, if_true]
      rfl), ?_⟩
    · refine ⟨getD_set_self _ _ _ _ (hw1 ▸ hilt),
        getD_set_self _ _ _ _ (hw2 ▸ hilt),
        getD_set_self _ _ _ _ (hw3 ▸ hilt),
        getD_set_self _ _ _ _ (hw4 ▸ hilt),
        getD_set_self _ _ _ _ (hw5 ▸ hilt),
        getD_set_self _ _ _ _ (hw6 ▸ hilt),
        getD_set_self _ _ _ _ (hw7 ▸ hilt),
        getD_set_self _ _ _ _ (hw8 ▸ hilt),
        getD_set_self _ _ _ _ (hw9 ▸ hilt),
        getD_set_self _ _ _ _ (hw10 ▸ hilt),
        ⟨true, ?_, by exact getD_set_self _ _ _ _ (hw11 ▸ hilt)⟩, ?_, ?_⟩
      · rw [isMotorOK_of_getD _ (pyInt v0) h0 (by exact h1) v5
          (by exact getD_set_self _ _ _ _ (hw5 ▸ hilt))]
        rw [if_neg (fun h => Bool.false_ne_true
          ((getD_set_self m.isMotorUpdatedList (pyInt v0).toNat false false
            (hw2 ▸ hilt)).symm.trans h))]
      · rw [if_neg (by simp)]
      · intro j hj
        exact ⟨getD_set_ne _ _ _ (Ne.symm hj), getD_set_ne _ _ _ (Ne.symm hj),
          getD_set_ne _ _ _ (Ne.symm hj), getD_set_ne _ _ _ (Ne.symm hj),
          getD_set_ne _ _ _ (Ne.symm hj), getD_set_ne _ _ _ (Ne.symm hj),
          getD_set_ne _ _ _ (Ne.symm hj), getD_set_ne _ _ _ (Ne.symm hj),
          getD_set_ne _ _ _ (Ne.symm hj), getD_set_ne _ _ _ (Ne.symm hj),
          getD_set_ne _ _ _ (Ne.symm hj), rfl⟩

theorem updateData_in_range_effect_witness :
    motorWF (Motor.init 0) ∧ 0 ≤ pyInt 0 ∧
    pyInt 0 < ((Motor.init 0).totalNumMotors : ℤ) ∧
    updateDataPost (Motor.init 0) 0 1 1000 50 48 5000 22 10 3 40 30 7 :=
  ⟨by with_unfolding_all decide, by with_unfolding_all decide,
   by with_unfolding_all decide,
   updateData_in_range_effect (Motor.init 0) 0 1 1000 50 48 5000 22 10 3 40 30 7
     (by with_unfolding_all decide) (by with_unfolding_all decide)
     (by with_unfolding_all decide)⟩

/-- C6: a received line is accepted as a telemetry frame iff splitting (after
stripping carriage returns and newlines) on commas yields exactly eleven
fields; a line with any other field count is rejected and the whole cycle
returns with the registry object untouched and nothing emitted. -/
theorem decode_accepts_iff_eleven_fields
    (pyFloat : String → Except PyErr ℚ) (m : Motor) (line : String) (now : ℚ)
    (hnum : m.numOfDataReceived = 10 + 1) :
    (readDataFromTeensy m (TransportResult.line line) now =
        Except.ok (true, { m with lasTimeHeartbeat := now }, decodeLine line) ↔
      (decodeLine line).length = 10 + 1) ∧
    ((decodeLine line).length ≠ 10 + 1 →
      getDataCallback pyFloat m (TransportResult.line line) now = (m, [])) := by
  constructor
  · constructor
    · intro hacc
      by_cases hlen : (decodeLine line).length = 10 + 1
      · exact hlen
      · exfalso
        simp only [readDataFromTeensy, hnum] at hacc
        rw [if_pos hlen] at hacc
        simp at hacc
    · intro hlen
      simp only [readDataFromTeensy, hnum]
      rw [if_neg (not_not_intro hlen)]
  · intro hlen
    have hread : readDataFromTeensy m (TransportResult.line line) now =
        Except.ok (false, m, decodeLine line) := by
      simp only [readDataFromTeensy, hnum]
      rw [if_pos hlen]
    simp only [getDataCallback, hread]
    simp

theorem decode_accepts_iff_eleven_fields_witness :
    (Motor.init 0).numOfDataReceived = 10 + 1 ∧
    (decodeLine "1,2,3,4,5,6,7,8,9").length ≠ 10 + 1 ∧
    getDataCallback pyFloatTable (Motor.init 0)
      (TransportResult.line "1,2,3,4,5,6,7,8,9") 5 = (Motor.init 0, []) :=
  ⟨by with_unfolding_all decide, by with_unfolding_all decide,
   (decode_accepts_iff_eleven_fields pyFloatTable (Motor.init 0)
      "1,2,3,4,5,6,7,8,9" 5 (by with_unfolding_all decide)).2
     (by with_unfolding_all decide)⟩

/-- C7: each emission cycle of the batcher: while any motor status is still
unset nothing is emitted; otherwise, once at least one full-telemetry period
(`1/frequencySendFullTelemetry`, one half second by default) has elapsed since
the last full emission, one `Full` snapshot carrying the eight per-motor lists
(each of length N) is emitted and the full-telemetry clock resets to now, and
otherwise one batch of N status-only messages is emitted, one per motor,
tagged "1".."N". -/
theorem telemetry_batcher_behavior (m : Motor) (now : ℚ) (hwf : motorWF m) :
    (none ∈ m.motorStatusList → prepareAndSendDataToAirCraft m now = (m, [])) ∧
    (none ∉ m.motorStatusList →
      (now - m.lastTimeSendFullTelemetry ≥ m.maxTimeBetweenTelemetry →
        prepareAndSendDataToAirCraft m now =
          ({ m with lastTimeSendFullTelemetry := now },
           [Emission.payload (Payload.fullData (mkDataToAirCraft m))]) ∧
        (mkDataToAirCraft m).motorStatusList.length = m.totalNumMotors ∧
        (mkDataToAirCraft m).throttleInPercentList.length = m.totalNumMotors ∧
        (mkDataToAirCraft m).throttleOutPercentList.length = m.totalNumMotors ∧
        (mkDataToAirCraft m).voltageList.length = m.totalNumMotors ∧
        (mkDataToAirCraft m).phaseCurrentList.length = m.totalNumMotors ∧
        (mkDataToAirCraft m).motorRPMList.length = m.totalNumMotors ∧
        (mkDataToAirCraft m).totalCurrentList.length = m.totalNumMotors ∧
        (mkDataToAirCraft m).mosfetTempList.length = m.totalNumMotors) ∧
      (now - m.lastTimeSendFullTelemetry < m.maxTimeBetweenTelemetry →
        prepareAndSendDataToAirCraft m now =
          (m, [Emission.statusOnly (statusMsgs m)]) ∧
        (statusMsgs m).length = m.totalNumMotors ∧
        (∀ i : Nat, i < m.totalNumMotors →
          (statusMsgs m)[i]? =
            some (toString (i + 1), m.motorStatusList.getD i none)))) ∧
    (Motor.init 0).maxTimeBetweenTelemetry = 1 / 2 := by
  obtain ⟨h1, h2, h3, h4, h5, h6, h7, h8, h9, h10, h11, h12⟩ := hwf
  refine ⟨?_, ?_, by with_unfolding_all rfl⟩
  · intro habs
    unfold prepareAndSendDataToAirCraft
    simp only []
    rw [if_pos habs]
  · intro hall
    constructor
    · intro hge
      refine ⟨?_, h11, h3, h4, h6, h8, h5, h7, h9⟩
      unfold prepareAndSendDataToAirCraft sendToAircraft
      simp only []
      rw [if_neg hall, if_pos hge]
    · intro hlt
      refine ⟨?_, ?_, ?_⟩
      · unfold prepareAndSendDataToAirCraft sendToAircraft
        simp only []
        rw [if_neg hall, if_neg (not_le.mpr hlt)]
      · unfold statusMsgs
        simp
      · intro i hi
        unfold statusMsgs
        rw [List.getElem?_map, List.getElem?_range hi]
        rfl

theorem telemetry_batcher_behavior_witness :
    motorWF mAllReported ∧ (none ∉ mAllReported.motorStatusList) ∧
    ((1 : ℚ) - mAllReported.lastTimeSendFullTelemetry ≥
      mAllReported.maxTimeBetweenTelemetry) ∧
    prepareAndSendDataToAirCraft mAllReported 1 =
      ({ mAllReported with lastTimeSendFullTelemetry := 1 },
       [Emission.payload (Payload.fullData (mkDataToAirCraft mAllReported))]) :=
  ⟨by with_unfolding_all decide, by with_unfolding_all decide,
   by with_unfolding_all decide,
   (((telemetry_batcher_behavior mAllReported 1
      (by with_unfolding_all decide)).2.1
        (by with_unfolding_all decide)).1
          (by with_unfolding_all decide)).1⟩

theorem handleExn_emissions (m : Motor) (now : ℚ) :
    (handleExn m now).2 = [] ∨
    (handleExn m now).2 = [Emission.payload Payload.errorMsg] := by
  unfold handleExn
  split
  · right; rfl
  · left; rfl

theorem isMotorsUpdateOK_emissions (m : Motor) (now : ℚ) :
    (isMotorsUpdateOK m now).2.2 = [] ∨
    (isMotorsUpdateOK m now).2.2 = [Emission.payload Payload.errorMsg] := by
  unfold isMotorsUpdateOK
  split
  · right; rfl
  · left; rfl

theorem prepareAndSend_emissions (m : Motor) (now : ℚ) :
    (prepareAndSendDataToAirCraft m now).2 = [] ∨
    ∃ e, (prepareAndSendDataToAirCraft m now).2 = [e] := by
  unfold prepareAndSendDataToAirCraft
  simp only []
  by_cases hmem : none ∈ m.motorStatusList
  · rw [if_pos hmem]
    left
    rfl
  · rw [if_neg hmem]
    by_cases hc : now - m.lastTimeSendFullTelemetry ≥ m.maxTimeBetweenTelemetry
    · rw [if_pos hc]
      right
      exact ⟨_, rfl⟩
    · rw [if_neg hc]
      right
      exact ⟨_, rfl⟩

/-- C8 (amended): one poll cycle emits at most two messages, and whenever two
are emitted the first is the communication-failure dictionary: the staleness
scan's warning does not abort the cycle, so it can be followed — in the same
iteration — by one full or status-only emission; apart from that prefix, at
most one emission per cycle is possible. -/
theorem cycle_emission_shape (pyFloat : String → Except PyErr ℚ) (m : Motor)
    (t : TransportResult) (now : ℚ) :
    cycleEmissionShape (getDataCallback pyFloat m t now).2 = true := by
  unfold getDataCallback
  cases t with
  | exn e =>
    simp only [readDataFromTeensy]
    rcases handleExn_emissions m now with h | h <;> simp [h, cycleEmissionShape]
  | line s =>
    by_cases hlen : (decodeLine s).length ≠ m.numOfDataReceived
    · have hread : readDataFromTeensy m (TransportResult.line s) now =
          Except.ok (false, m, decodeLine s) := by
        simp only [readDataFromTeensy]
        rw [if_pos hlen]
      simp only [hread]
      simp [cycleEmissionShape]
    · push_neg at hlen
      have hread : readDataFromTeensy m (TransportResult.line s) now =
          Except.ok (true, { m with lasTimeHeartbeat := now }, decodeLine s) := by
        simp only [readDataFromTeensy]
        rw [if_neg (not_not_intro hlen)]
      simp only [hread]
      rcases h2 : isMotorsUpdateOK { m with lasTimeHeartbeat := now } now with
        ⟨b2, m2, es2⟩
      have hes2 := isMotorsUpdateOK_emissions { m with lasTimeHeartbeat := now } now
      rw [h2] at hes2
      simp only at hes2
      simp only [h2]
      rcases h3 : updateData pyFloat m2 (decodeLine s) now with e3 | r3
      · simp only [h3]
        rcases hes2 with h | h <;> rcases handleExn_emissions m2 now with hh | hh <;>
          simp [h, hh, cycleEmissionShape]
      · rcases r3 with ⟨b3, m3⟩
        simp only [h3]
        cases b3 with
        | false =>
          rcases hes2 with h | h <;> simp [h, cycleEmissionShape]
        | true =>
          rcases prepareAndSend_emissions m3 now with hp | ⟨e4, hp⟩ <;>
            rcases hes2 with h | h <;> simp [h, hp, cycleEmissionShape]

/-- C8 (counterexample): a single cycle in which motor 0 is stale (updated
flag false, silent for 10 s with a 5 s deadline) while all statuses are
filled: the staleness warning is emitted, the cycle continues (its Boolean
result is ignored at line 140), the valid frame for motor 0 is applied, and a
status-only batch is emitted too — two emissions in the one iteration,
refuting "at most one emission per cycle". -/
theorem cycle_two_emissions :
    (getDataCallback pyFloatTable mAllReported
        (TransportResult.line telemetryLine) 10).2 =
      [Emission.payload Payload.errorMsg,
       Emission.statusOnly
         [("1", some "normal"), ("2", some "normal"), ("3", some "normal"),
          ("4", some "normal"), ("5", some "normal"), ("6", some "normal")]] := by
  with_unfolding_all decide
